import Mathlib

/-!
Formalisation of the packaging descriptor `ci/fireci/setup.py`.

The source file is a declarative setuptools descriptor: it pins eight runtime
dependencies, discovers the packages to ship via `find_packages` with the
exclusion list `['tests']`, registers one console script
`fireci = fireci.main:cli`, and, as a load-time side effect, changes the
process working directory to the directory containing the descriptor file.

Package discovery (`setuptools.find_packages`) and the `os.path` functions are
external library code, not part of this repository; they are modelled from the
specification's description of their behaviour, marked as such below.  The
literal data of the descriptor (the dependency list, the entry-point mapping,
the `setup(...)` keyword arguments, the module-level `requires = []` binding)
is embedded directly from the source.
-/

/-- A package identifier: the components of a dotted package name, so the
package `a.b` is `["a", "b"]`. -/
abbrev PkgId := List String

/-- Modelled from the spec: `setuptools.find_packages` is external library
code absent from the repository source.  Per the spec, discovery walks the
source tree rooted at the descriptor's directory, returning every importable
package, minus any whose path component matches an exclusion pattern.  The
walk is abstracted as the list of importable package identifiers it finds, and
the exclusion patterns here are literal names. -/
def find_packages (tree : List PkgId) (exclude : List String) : List PkgId :=
  tree.filter (fun p => !(p.any (fun c => exclude.contains c)))

/-- Python values appearing as `setup` keyword arguments. -/
inductive PyVal where
  | str : String → PyVal
  | list : List PyVal → PyVal
  | dict : List (String × PyVal) → PyVal

/-- The module-level binding `requires = []` at line 22 of the source. -/
def requires : List String := []

/-- The literal `install_requires` list of the `setup(...)` call
(lines 27 - 36 of the source). -/
def fireci_install_requires : List String :=
  ["protobuf==3.19",
   "click==7.0",
   "google-cloud-storage==1.44.0",
   "numpy==1.19.5",
   "PyGithub==1.43.8",
   "pystache==0.5.4",
   "requests==2.23.0",
   "PyYAML==6.0.0"]

/-- The literal `entry_points` dictionary of the `setup(...)` call
(lines 38 - 40 of the source): one group, `console_scripts`, holding the one
specification string `fireci = fireci.main:cli`. -/
def fireci_entry_points : List (String × List String) :=
  [("console_scripts", ["fireci = fireci.main:cli"])]

/-- The dotted name of a package identifier. -/
def pkgName (p : PkgId) : String :=
  String.intercalate "." p

/-- The keyword arguments of the `setup(...)` call (lines 24 - 41 of the
source), built with the module-level `requires` binding in scope exactly as it
is in the file.  The source tree is a parameter because package discovery runs
over it at build time. -/
def setupCallKwargs (requiresVar : List String) (tree : List PkgId) :
    List (String × PyVal) :=
  [("name", PyVal.str "fireci"),
   ("version", PyVal.str "0.1"),
   ("install_requires", PyVal.list (fireci_install_requires.map PyVal.str)),
   ("packages",
     PyVal.list ((find_packages tree ["tests"]).map (fun p => PyVal.str (pkgName p)))),
   ("entry_points",
     PyVal.dict (fireci_entry_points.map
       (fun g => (g.1, PyVal.list (g.2.map PyVal.str)))))]

/-- Splits a character list at every occurrence of the character `c`;
the separators are dropped, and `n` separators yield `n + 1` pieces. -/
def splitOnChar (c : Char) : List Char → List (List Char)
  | [] => [[]]
  | x :: xs =>
    let r := splitOnChar c xs
    if x == c then
      [] :: r
    else
      match r with
      | [] => [[x]]
      | y :: ys => (x :: y) :: ys

/-- Removes leading and trailing space characters. -/
def trimSpaces (l : List Char) : List Char :=
  (((l.dropWhile (fun c => c == ' ')).reverse.dropWhile (fun c => c == ' ')).reverse)

/-- A parsed console-script binding: command name, module path, and the
callable attribute inside that module. -/
structure EntryPointRef where
  command : String
  module : String
  attr : String
deriving DecidableEq

/-- Modelled from the spec: the packaging tool reads each console-script
specification `name = module:callable`, generating a shim that invokes the
named callable of the named module under the given command name. -/
def parseEntryPoint (s : String) : Option EntryPointRef :=
  match splitOnChar '=' s.toList with
  | [lhs, rhs] =>
    match splitOnChar ':' (trimSpaces rhs) with
    | [m, a] => some ⟨String.mk (trimSpaces lhs), String.mk m, String.mk a⟩
    | _ => none
  | _ => none

/-- Holds when no character of the list is a version-range or multi-clause
constraint character; `=` itself is handled by the split in `isExactPin`. -/
def noConstraintChars (l : List Char) : Bool :=
  l.all (fun c =>
    !(c == '<' || c == '>' || c == '!' || c == '~' || c == ',' || c == '*' || c == ' '))

/-- Holds when a requirement string is an exact pin `name==version`: exactly
one `==`, no other `=`, both sides nonempty, and neither side containing a
range operator, wildcard, or clause separator. -/
def isExactPin (s : String) : Bool :=
  match splitOnChar '=' s.toList with
  | [n, e, v] => e.isEmpty && !n.isEmpty && !v.isEmpty &&
      noConstraintChars n && noConstraintChars v
  | _ => false

/-- The library name of a requirement string: everything before the first
`=`. -/
def pinName (s : String) : String :=
  match splitOnChar '=' s.toList with
  | n :: _ => String.mk n
  | [] => s

/-- A filesystem path as the descriptor sees it: absolute or relative, as a
list of components. -/
inductive PyPath where
  | abs : List String → PyPath
  | rel : List String → PyPath
deriving DecidableEq

/-- The components of a path. -/
def PyPath.parts : PyPath → List String
  | .abs cs => cs
  | .rel cs => cs

/-- Modelled from the spec: `os.path.dirname` drops the final path component,
preserving absoluteness. -/
def dirname : PyPath → PyPath
  | .abs cs => .abs cs.dropLast
  | .rel cs => .rel cs.dropLast

/-- Modelled from the spec: `os.path.abspath` resolves a path against the
current working directory; an absolute path is returned unchanged, a relative
one is joined onto the working directory. -/
def abspath (cwd : List String) : PyPath → List String
  | .abs cs => cs
  | .rel cs => cwd ++ cs

/-- The process-wide state the descriptor touches: the current working
directory, as an absolute component list. -/
structure Proc where
  cwd : List String
deriving DecidableEq

/-- The load-time side effect at line 20 of the source:
`os.chdir(os.path.abspath(os.path.dirname(__file__)))`, where `file` stands
for the `__file__` path under which the descriptor module was loaded. -/
def loadChdir (file : PyPath) (s : Proc) : Proc :=
  { cwd := abspath s.cwd (dirname file) }

/-- Loading the descriptor module: the working-directory change happens
first, then `requires = []` is bound and `setup` is called with its keyword
arguments. -/
def loadModule (file : PyPath) (tree : List PkgId) (s : Proc) :
    Proc × List (String × PyVal) :=
  (loadChdir file s, setupCallKwargs requires tree)

/-- Dropping the last element distributes over an append whose right part is
nonempty. -/
theorem dropLast_append_ne_nil (l1 l2 : List String) (h : l2 ≠ []) :
    (l1 ++ l2).dropLast = l1 ++ l2.dropLast := by
  induction l1 with
  | nil => rfl
  | cons x xs ih =>
    have hne : xs ++ l2 ≠ [] := by
      intro hc
      exact h (List.append_eq_nil.mp hc).2
    cases hx : xs ++ l2 with
    | nil => exact absurd hx hne
    | cons y ys =>
      simp only [List.cons_append, hx, List.dropLast_cons₂]
      rw [← hx, ih]

/-- Resolving the dirname of a nonempty path against a working directory
gives the dirname of the resolved path. -/
theorem abspath_dirname (cwd : List String) (f : PyPath) (h : f.parts ≠ []) :
    abspath cwd (dirname f) = (abspath cwd f).dropLast := by
  cases f with
  | abs cs => rfl
  | rel cs =>
    simp only [dirname, abspath]
    exact (dropLast_append_ne_nil cwd cs h).symm

/-- C1: for a source tree containing exactly the importable packages
`a`, `a.b`, `tests`, `tests.unit`, the discovery configured by the descriptor
(`find_packages` with exclusion list `["tests"]`) returns exactly
`a` and `a.b`. -/
theorem find_packages_example_tree :
    find_packages [["a"], ["a", "b"], ["tests"], ["tests", "unit"]] ["tests"]
      = [["a"], ["a", "b"]] := by decide

/-- C2: for every source tree containing a directory named `tests`, the
discovery configured by the descriptor returns no entry equal to `tests` and
no entry with any path component matching the exclusion pattern. -/
theorem find_packages_excludes_tests (tree : List PkgId)
    (h : ["tests"] ∈ tree) :
    ∀ p ∈ find_packages tree ["tests"], p ≠ ["tests"] ∧ "tests" ∉ p := by
  intro p hp
  have hmem := List.mem_filter.mp hp
  have hpred := hmem.2
  have hno : "tests" ∉ p := by
    intro hin
    have : p.any (fun c => List.contains ["tests"] c) = true := by
      refine List.any_eq_true.mpr ⟨"tests", hin, ?_⟩
      decide
    rw [this] at hpred
    exact Bool.false_ne_true hpred
  refine ⟨?_, hno⟩
  intro hc
  apply hno
  rw [hc]
  exact List.mem_singleton.mpr rfl

theorem find_packages_excludes_tests_witness :
    (["tests"] ∈ ([["a"], ["tests"], ["tests", "unit"]] : List PkgId))
    ∧ ∀ p ∈ find_packages [["a"], ["tests"], ["tests", "unit"]] ["tests"],
        p ≠ ["tests"] ∧ "tests" ∉ p :=
  ⟨by decide,
   find_packages_excludes_tests [["a"], ["tests"], ["tests", "unit"]] (by decide)⟩

/-- C3: the declared runtime dependency list is exactly the eight exact pins
`protobuf==3.19`, `click==7.0`, `google-cloud-storage==1.44.0`,
`numpy==1.19.5`, `PyGithub==1.43.8`, `pystache==0.5.4`, `requests==2.23.0`,
`PyYAML==6.0.0`, and nothing else, and it is what the descriptor hands to the
packaging tool as `install_requires`. -/
theorem install_requires_exact_list (r : List String) (t : List PkgId) :
    fireci_install_requires
        = ["protobuf==3.19", "click==7.0", "google-cloud-storage==1.44.0",
           "numpy==1.19.5", "PyGithub==1.43.8", "pystache==0.5.4",
           "requests==2.23.0", "PyYAML==6.0.0"]
      ∧ List.lookup "install_requires" (setupCallKwargs r t)
        = some (PyVal.list (fireci_install_requires.map PyVal.str)) :=
  ⟨rfl, rfl⟩

/-- C4: the descriptor registers exactly one installable command, in the one
entry-point group `console_scripts`; the command is named `fireci` and its
target is the callable `cli` in module `fireci.main`. -/
theorem entry_points_single_fireci (r : List String) (t : List PkgId) :
    List.lookup "entry_points" (setupCallKwargs r t)
        = some (PyVal.dict [("console_scripts",
            PyVal.list [PyVal.str "fireci = fireci.main:cli"])])
      ∧ parseEntryPoint "fireci = fireci.main:cli"
        = some ⟨"fireci", "fireci.main", "cli"⟩ :=
  ⟨rfl, by decide⟩

/-- C5: every constraint in the declared dependency list is an exact-pin
equality constraint (operator `==`, a single version, no range), and the list
handed to the packaging tool is the declared list verbatim, order and content
preserved. -/
theorem install_requires_exact_pins_verbatim (r : List String) (t : List PkgId) :
    fireci_install_requires.all isExactPin = true
      ∧ List.lookup "install_requires" (setupCallKwargs r t)
        = some (PyVal.list (fireci_install_requires.map PyVal.str)) :=
  ⟨by decide, rfl⟩

/-- C6: in the declared dependency list, each library name appears at most
once. -/
theorem install_requires_names_nodup :
    (fireci_install_requires.map pinName).Nodup := by decide

/-- C7: package discovery as configured by the descriptor is deterministic:
two runs over the same unchanged source tree return the same packages. -/
theorem find_packages_deterministic (t1 t2 : List PkgId) (e : List String)
    (h : t1 = t2) :
    find_packages t1 e = find_packages t2 e := by
  rw [h]

theorem find_packages_deterministic_witness :
    ([["a"], ["tests"]] : List PkgId) = [["a"], ["tests"]]
    ∧ find_packages [["a"], ["tests"]] ["tests"]
        = find_packages [["a"], ["tests"]] ["tests"] :=
  ⟨rfl, find_packages_deterministic [["a"], ["tests"]] [["a"], ["tests"]] ["tests"] rfl⟩

/-- C8: when the source tree contains no importable packages, the discovery
configured by the descriptor returns the empty set, whatever the exclusion
list; it is a total function, so no error is signalled. -/
theorem find_packages_empty_tree (e : List String) :
    find_packages [] e = [] := rfl

/-- C9: loading the descriptor sets the process working directory to the
absolute directory containing the descriptor file, before `setup` runs: for
any two load sites whose (possibly relative) `__file__` paths resolve to the
same true file location, the resulting working directory is the same, namely
that location's directory, independent of the prior working directory. -/
theorem loadChdir_location_independent
    (s1 s2 : Proc) (f1 f2 : PyPath) (tree : List PkgId) (F : List String)
    (h1 : abspath s1.cwd f1 = F) (h2 : abspath s2.cwd f2 = F)
    (n1 : f1.parts ≠ []) (n2 : f2.parts ≠ []) :
    (loadModule f1 tree s1).1.cwd = F.dropLast
      ∧ (loadModule f2 tree s2).1.cwd = F.dropLast := by
  constructor
  · show abspath s1.cwd (dirname f1) = F.dropLast
    rw [abspath_dirname s1.cwd f1 n1, h1]
  · show abspath s2.cwd (dirname f2) = F.dropLast
    rw [abspath_dirname s2.cwd f2 n2, h2]

theorem loadChdir_location_independent_witness :
    (loadModule (PyPath.rel ["ci", "fireci", "setup.py"]) [["fireci"]]
        ⟨["repo"]⟩).1.cwd
      = ["repo", "ci", "fireci"]
    ∧ (loadModule (PyPath.abs ["repo", "ci", "fireci", "setup.py"]) [["fireci"]]
        ⟨["somewhere", "else"]⟩).1.cwd
      = ["repo", "ci", "fireci"] :=
  loadChdir_location_independent ⟨["repo"]⟩ ⟨["somewhere", "else"]⟩
    (PyPath.rel ["ci", "fireci", "setup.py"])
    (PyPath.abs ["repo", "ci", "fireci", "setup.py"])
    [["fireci"]]
    ["repo", "ci", "fireci", "setup.py"]
    rfl rfl (by decide) (by decide)

/-- C10: the module-level `requires = []` binding is never passed to the
`setup` call and has no effect on it: the keyword arguments are exactly
`name`, `version`, `install_requires`, `packages`, `entry_points`, and they
are the same whatever value `requires` holds. -/
theorem setup_kwargs_exact_and_requires_unused
    (r1 r2 : List String) (t : List PkgId) :
    (setupCallKwargs r1 t).map Prod.fst
        = ["name", "version", "install_requires", "packages", "entry_points"]
      ∧ setupCallKwargs r1 t = setupCallKwargs r2 t :=
  ⟨rfl, rfl⟩
